import Mathlib

/-!
Shallow embedding of the request-signing core of the `satispay-node-sdk`
repository (files `src/Request.ts`, `src/RSAService/RSAServiceCrypto.ts`,
`src/RSAService/RSAServiceFactory.ts`).

Modelling conventions:
* JS strings are Lean `String`s; `Buffer.byteLength` / `Buffer.from(s)` are
  modelled by an explicit executable UTF-8 encoder (`utf8Bytes`,
  `byteLength`).
* The external cryptographic primitives of Node's `crypto` module
  (SHA-256, base64, `createSign(...).sign`) are opaque to the repository:
  they are modelled as abstract function parameters, bundled in
  `CryptoPrims`. A primitive that can throw is modelled with `Except`.
* `new Date().toUTCString()` (Request.ts line 86) is a single clock read
  captured in the local constant `date`; it is modelled as the parameter
  `date` threaded into `signRequest` (one parameter = one capture).
* JS `Record<string, string>` objects are association lists with
  JS-object assignment semantics: overwriting a key keeps its original
  position, a fresh key is appended (`setHeader`); `Object.assign` and
  object spread apply `setHeader` for each source pair in order
  (`assignAll`).
* Throwing functions return `Except String`; the factory's module-global
  `instance` cache is passed as explicit state.
-/

namespace Satispay

/-- HTTP method union type from `src/types.ts` line 21. -/
inductive HttpMethod where
  | GET
  | POST
  | PUT
  | PATCH
  | DELETE
deriving DecidableEq, Repr

/-- The literal string value carried by an `HttpMethod` in the source
(the TS type is the union of these string literals). -/
def methodName : HttpMethod → String
  | .GET => "GET"
  | .POST => "POST"
  | .PUT => "PUT"
  | .PATCH => "PATCH"
  | .DELETE => "DELETE"

/-- JS `method.toLowerCase()` applied to the five possible method strings
(Request.ts line 94). -/
def HttpMethod.toLowerCase : HttpMethod → String
  | .GET => "get"
  | .POST => "post"
  | .PUT => "put"
  | .PATCH => "patch"
  | .DELETE => "delete"

/-- UTF-8 encoding of a single Unicode code point, as a list of byte
values.  Models Node's UTF-8 encoder used by `Buffer.from(string)` and
`Buffer.byteLength(string)`. -/
def utf8EncCharBytes (c : Nat) : List Nat :=
  if c < 0x80 then [c]
  else if c < 0x800 then [0xC0 + c / 0x40, 0x80 + c % 0x40]
  else if c < 0x10000 then
    [0xE0 + c / 0x1000, 0x80 + (c / 0x40) % 0x40, 0x80 + c % 0x40]
  else
    [0xF0 + c / 0x40000, 0x80 + (c / 0x1000) % 0x40,
     0x80 + (c / 0x40) % 0x40, 0x80 + c % 0x40]

/-- The UTF-8 byte sequence of a string (raw bytes of the JS string as
Node encodes it by default). -/
def utf8Bytes (s : String) : List Nat :=
  s.data.foldr (fun c r => utf8EncCharBytes c.toNat ++ r) []

/-- `Buffer.byteLength(s)`: the UTF-8 byte length of `s`
(Request.ts lines 99 and 159). -/
def byteLength (s : String) : Nat :=
  (utf8Bytes s).length

/-- JS `String.prototype.replace(pat, repl)` with a string pattern:
replaces only the FIRST occurrence of `pat` (used as
`authservicesUrl.replace('https://', '')`, Request.ts line 95). -/
def replaceFirstChars (pat repl : List Char) : List Char → List Char
  | [] => if pat = [] then repl else []
  | c :: cs =>
    if pat.isPrefixOf (c :: cs) then repl ++ (c :: cs).drop pat.length
    else c :: replaceFirstChars pat repl cs

/-- String wrapper for `replaceFirstChars`; `s.replace(pat, repl)` in JS. -/
def replaceFirstStr (s pat repl : String) : String :=
  ⟨replaceFirstChars pat.data repl.data s.data⟩

/-- Abstract interface to Node's `crypto` module, opaque to the
repository code.  `rsaSignPrim` models `createSign('RSA-SHA256')
.update(message).sign(privateKey)`: `.error e` models a throw with
message `e` (e.g. malformed key), `.ok bytes` the raw signature bytes.
`generateKeyPairSyncIsFunction` models
`typeof crypto.generateKeyPairSync === 'function'`. -/
structure CryptoPrims where
  sha256 : List Nat → List Nat
  base64 : List Nat → String
  rsaSignPrim : String → String → Except String (List Nat)
  generateKeyPairSyncIsFunction : Bool

/-- The concrete backends of the RSA service abstraction.  The source
registers exactly one backend class, `RSAServiceCrypto`. -/
inductive RSAServiceKind where
  | crypto
deriving DecidableEq, Repr

/-- `RSAServiceCrypto.isAvailable` (RSAServiceCrypto.ts lines 12-18):
the capability probe; it never throws. -/
def RSAServiceCrypto.isAvailable (cp : CryptoPrims) : Bool :=
  cp.generateKeyPairSyncIsFunction

/-- `RSAServiceCrypto.sign` (RSAServiceCrypto.ts lines 53-62): delegates
to the crypto primitive and wraps a thrown error in
`Signing failed: <message>` (the spec's `SigningError`). -/
def RSAServiceCrypto.sign (cp : CryptoPrims) (privateKey message : String) :
    Except String (List Nat) :=
  match cp.rsaSignPrim privateKey message with
  | .ok b => .ok b
  | .error e => .error ("Signing failed: " ++ e)

/-- Dispatch of `rsaService.sign` through the service value returned by
the factory. -/
def RSAService.sign (svc : RSAServiceKind) (cp : CryptoPrims)
    (privateKey message : String) : Except String (List Nat) :=
  match svc with
  | .crypto => RSAServiceCrypto.sign cp privateKey message

/-- `RSAServiceFactory.get` (RSAServiceFactory.ts lines 13-25).  The
module-global `instance : RSAService | null` cache is the explicit state
argument; the result pairs the returned service with the new cache
state.  A throw of `new Error('No RSA service available.')` (the spec's
`NoBackendAvailableError`) is the `.error` case. -/
def RSAServiceFactory.get (cp : CryptoPrims)
    (instanceState : Option RSAServiceKind) :
    Except String (RSAServiceKind × Option RSAServiceKind) :=
  match instanceState with
  | some i => .ok (i, some i)
  | none =>
    if RSAServiceCrypto.isAvailable cp then .ok (.crypto, some .crypto)
    else .error "No RSA service available."

/-- The `digest` constant of `Request.signRequest` (Request.ts lines
89-91): base64 of the SHA-256 of the raw UTF-8 bytes of the serialized
body. -/
def digestOf (cp : CryptoPrims) (body : String) : String :=
  cp.base64 (cp.sha256 (utf8Bytes body))

/-- The canonical signature string assembled by `Request.signRequest`
(Request.ts lines 94-103), with the `digest` and `date` values as
parameters.  `if (options.body)` is string truthiness: non-empty. -/
def signatureString (method : HttpMethod)
    (path body authservicesUrl digest date : String) : String :=
  "(request-target): " ++ method.toLowerCase ++ " " ++ path ++ "\n" ++
  ("host: " ++ replaceFirstStr authservicesUrl "https://" "" ++ "\n") ++
  (if body = "" then ""
   else "content-type: application/json\n" ++
        ("content-length: " ++ toString (byteLength body) ++ "\n")) ++
  ("digest: SHA-256=" ++ digest ++ "\n") ++
  ("date: " ++ date)

/-- The `signatureHeaders` list string of `Request.signRequest`
(Request.ts lines 109-112): initialized to the 4-name form and
overwritten with the 6-name form when the body is truthy. -/
def signatureHeadersList (body : String) : String :=
  if body = "" then "(request-target) host digest date"
  else "(request-target) host content-type content-length digest date"

/-- `Request.signRequest` (Request.ts lines 76-118).  `date` is the
single `new Date().toUTCString()` capture of line 86.  Returns the
`{Date, Digest, Authorization}` header record, or the propagated throw
of the factory or of `rsaService.sign`. -/
def signRequest (cp : CryptoPrims) (factoryInstance : Option RSAServiceKind)
    (date : String) (method : HttpMethod)
    (path body authservicesUrl privateKey keyId : String) :
    Except String (List (String × String)) :=
  let digest := digestOf cp body
  let signature := signatureString method path body authservicesUrl digest date
  match RSAServiceFactory.get cp factoryInstance with
  | .error e => .error e
  | .ok rsaServiceAndState =>
    match RSAService.sign rsaServiceAndState.1 cp privateKey signature with
    | .error e => .error e
    | .ok signedSignature =>
      let base64SignedSignature := cp.base64 signedSignature
      let signatureHeaders := signatureHeadersList body
      .ok [("Date", date),
           ("Digest", "SHA-256=" ++ digest),
           ("Authorization",
            "Signature keyId=\"" ++ keyId ++
            "\", algorithm=\"rsa-sha256\", headers=\"" ++ signatureHeaders ++
            "\", signature=\"" ++ base64SignedSignature ++ "\"")]

/-- JS object assignment `headers[k] = v`: overwrite in place if the key
exists (keeping its position), otherwise append. -/
def setHeader : List (String × String) → String → String → List (String × String)
  | [], k, v => [(k, v)]
  | (k0, v0) :: t, k, v =>
    if k0 = k then (k, v) :: t else (k0, v0) :: setHeader t k v

/-- Object spread / `Object.assign(target, src)`: assign every pair of
`src` into `target`, in order. -/
def assignAll (hs news : List (String × String)) : List (String × String) :=
  news.foldl (fun acc kv => setHeader acc kv.1 kv.2) hs

/-- Reading `headers[k]`: the value at the first (hence unique) matching
key, if any. -/
def lookupHeader : List (String × String) → String → Option String
  | [], _ => none
  | (k0, v0) :: t, k => if k0 = k then some v0 else lookupHeader t k

/-- The pattern `if (x) headers[K] = x` for an `x : string | null` getter
(Request.ts lines 148-153): assign only when `x` is truthy (present and
non-empty). -/
def addHeaderIf (hs : List (String × String)) (k : String) :
    Option String → List (String × String)
  | some s => if s = "" then hs else setHeader hs k s
  | none => hs

/-- JS truthiness of a `string | null` value. -/
def truthy : Option String → Bool
  | some s => s ≠ ""
  | none => false

/-- The process-wide `Api` configuration read by `Request.request`
(`src/Api.ts`): credential store (`privateKey`, `keyId`,
`authservicesUrl`), SDK version, and the optional platform header
values. -/
structure ApiEnv where
  privateKey : Option String
  keyId : Option String
  authservicesUrl : String
  version : String
  platformHeader : Option String
  platformVersionHeader : Option String
  pluginVersionHeader : Option String
  pluginNameHeader : Option String
  typeHeader : Option String
  trackingHeader : Option String

/-- The options of `Request.request` (Request.ts lines 124-130).
`body = some s` models a truthy `options.body` whose
`JSON.stringify` serialization is `s` (a truthy JS value never
serializes to the empty string); `none` models an absent/falsy body. -/
structure RequestOptions where
  path : String
  method : HttpMethod
  body : Option String := none
  headers : List (String × String) := []
  sign : Bool := false

/-- The outbound transport call assembled by `Request.request` right
before `fetch(url, fetchOptions)` (Request.ts lines 180-207): the point
where the core hands over to the external transport. -/
structure FetchCall where
  url : String
  method : HttpMethod
  headers : List (String × String)
  body : Option String
deriving DecidableEq, Repr

/-- The header map built by `Request.request` before body and signing
handling (Request.ts lines 134-153): static `Accept` / `User-Agent`,
caller-supplied headers spread over them, then the conditional
`x-satispay-*` platform headers. -/
def baseHeaders (env : ApiEnv) (callerHeaders : List (String × String)) :
    List (String × String) :=
  let headers := assignAll
    [("Accept", "application/json"),
     ("User-Agent", "SatispayGBusinessApiNodeSdk/" ++ env.version)]
    callerHeaders
  let headers := addHeaderIf headers "x-satispay-os" env.platformHeader
  let headers := addHeaderIf headers "x-satispay-osv" env.platformVersionHeader
  let headers := addHeaderIf headers "x-satispay-appv" env.pluginVersionHeader
  let headers := addHeaderIf headers "x-satispay-appn" env.pluginNameHeader
  let headers := addHeaderIf headers "x-satispay-devicetype" env.typeHeader
  addHeaderIf headers "x-satispay-tracking-code" env.trackingHeader

/-- Body serialization step of `Request.request` (Request.ts lines
155-160): for a truthy body, the serialized string together with the
`Content-Type` / `Content-Length` assignments; otherwise the empty
string and untouched headers. -/
def withBodyHeaders (headers : List (String × String)) :
    Option String → String × List (String × String)
  | some s =>
    (s, setHeader (setHeader headers "Content-Type" "application/json")
          "Content-Length" (toString (byteLength s)))
  | none => ("", headers)

/-- The signing step of `Request.request` (Request.ts lines 162-178):
only when `options.sign` is set and both `privateKey` and `keyId` are
truthy is `signRequest` invoked; otherwise no signing headers are
contributed.  A throw inside `signRequest` propagates (it happens
outside the try/catch that wraps the fetch). -/
def signStep (cp : CryptoPrims) (factoryInstance : Option RSAServiceKind)
    (env : ApiEnv) (date : String) (method : HttpMethod) (path body : String)
    (sign : Bool) : Except String (List (String × String)) :=
  if sign then
    match env.privateKey, env.keyId with
    | some privateKey, some keyId =>
      if privateKey ≠ "" ∧ keyId ≠ "" then
        signRequest cp factoryInstance date method path body
          env.authservicesUrl privateKey keyId
      else Except.ok []
    | _, _ => Except.ok []
  else Except.ok []

/-- `Request.request` (Request.ts lines 124-207), modelled up to the
transport boundary: it returns the `FetchCall` handed to `fetch`, or the
propagated throw of the signing step.  Line 190: the body is attached to
the fetch options only when non-empty and the method is not GET. -/
def Request.request (cp : CryptoPrims) (factoryInstance : Option RSAServiceKind)
    (env : ApiEnv) (date : String) (options : RequestOptions) :
    Except String FetchCall :=
  let hb := withBodyHeaders (baseHeaders env options.headers) options.body
  let body := hb.1
  let headers := hb.2
  match signStep cp factoryInstance env date options.method options.path body
      options.sign with
  | .error e => .error e
  | .ok signHeaders =>
    .ok { url := env.authservicesUrl ++ options.path,
          method := options.method,
          headers := assignAll headers signHeaders,
          body :=
            if body ≠ "" ∧ options.method ≠ HttpMethod.GET then some body
            else none }

/-- JS `if (x) { ... }` serialization of `options.body`: the serialized
body string of `Request.request` line 155-157 (empty when the body
option is falsy). -/
def serializeBody : Option String → String
  | some s => s
  | none => ""

/-- The pseudo-header names present in the canonical signature string,
in order, as a list (spec 3: 4 names for an empty body, 6 otherwise). -/
def canonicalHeaderNames (body : String) : List String :=
  if body = "" then ["(request-target)", "host", "digest", "date"]
  else ["(request-target)", "host", "content-type", "content-length",
        "digest", "date"]

/-- The values carried by the pseudo-header lines of the canonical
signature string, in the same order as `canonicalHeaderNames`. -/
def canonicalHeaderValues (m : HttpMethod)
    (path body url digest date : String) : List String :=
  if body = "" then
    [m.toLowerCase ++ " " ++ path, replaceFirstStr url "https://" "",
     "SHA-256=" ++ digest, date]
  else
    [m.toLowerCase ++ " " ++ path, replaceFirstStr url "https://" "",
     "application/json", toString (byteLength body),
     "SHA-256=" ++ digest, date]

/-- The header keys that `Request.request` writes after spreading the
caller-supplied headers (Request.ts lines 148-159 and 176), hence the
keys a caller cannot reliably override. -/
def overwrittenHeaderKeys : List String :=
  ["Date", "Digest", "Authorization", "Content-Type", "Content-Length",
   "x-satispay-os", "x-satispay-osv", "x-satispay-appv", "x-satispay-appn",
   "x-satispay-devicetype", "x-satispay-tracking-code"]

/-- Concrete crypto primitives used to instantiate theorems on closed
inputs: stub hash/base64/sign values, backend available. -/
def cpFixture : CryptoPrims :=
  { sha256 := fun _ => [7],
    base64 := fun _ => "QUJD",
    rsaSignPrim := fun _ _ => Except.ok [1, 2],
    generateKeyPairSyncIsFunction := true }

/-- Concrete crypto primitives whose signing primitive throws, modelling
a malformed private key. -/
def cpFixtureFail : CryptoPrims :=
  { sha256 := fun _ => [7],
    base64 := fun _ => "QUJD",
    rsaSignPrim := fun _ _ => Except.error "malformed key",
    generateKeyPairSyncIsFunction := true }

/-- Concrete crypto primitives with a chosen availability flag. -/
def cpFixtureAvail (b : Bool) : CryptoPrims :=
  { sha256 := fun _ => [],
    base64 := fun _ => "",
    rsaSignPrim := fun _ _ => Except.ok [],
    generateKeyPairSyncIsFunction := b }

/-- Concrete `Api` configuration with both credentials present. -/
def envFixture : ApiEnv :=
  { privateKey := some "PK",
    keyId := some "KID",
    authservicesUrl := "https://staging.authservices.satispay.com",
    version := "2.0.0",
    platformHeader := none,
    platformVersionHeader := none,
    pluginVersionHeader := none,
    pluginNameHeader := none,
    typeHeader := none,
    trackingHeader := none }

/-- Concrete `Api` configuration with the private key absent. -/
def envFixtureNoKey : ApiEnv :=
  { envFixture with privateKey := none }

/-- Concrete request options for the precedence counterexample: a signed
POST whose caller supplies a `Content-Type` header of their own. -/
def cex9Opts : RequestOptions :=
  { path := "/g_business/v1/payments",
    method := .POST,
    body := some "\x7b\x7d",
    headers := [("Content-Type", "text/plain")],
    sign := true }

/-- Concrete request options for a signed POST with body. -/
def optsFixtureSigned : RequestOptions :=
  { path := "/g_business/v1/payments",
    method := .POST,
    body := some "BODY",
    headers := [],
    sign := true }

/-- Concrete request options for a signed GET carrying a body option. -/
def optsFixtureGetBody : RequestOptions :=
  { path := "/g_business/v1/payments",
    method := .GET,
    body := some "BODY",
    headers := [],
    sign := true }

section Lemmas

theorem withBodyHeaders_fst (hs : List (String × String)) (b : Option String) :
    (withBodyHeaders hs b).1 = serializeBody b := by
  cases b <;> rfl

theorem signatureString_intercalate (m : HttpMethod)
    (path body url digest date : String) :
    signatureString m path body url digest date =
      if body = "" then
        String.intercalate "\n"
          ["(request-target): " ++ m.toLowerCase ++ " " ++ path,
           "host: " ++ replaceFirstStr url "https://" "",
           "digest: SHA-256=" ++ digest,
           "date: " ++ date]
      else
        String.intercalate "\n"
          ["(request-target): " ++ m.toLowerCase ++ " " ++ path,
           "host: " ++ replaceFirstStr url "https://" "",
           "content-type: application/json",
           "content-length: " ++ toString (byteLength body),
           "digest: SHA-256=" ++ digest,
           "date: " ++ date] := by
  by_cases h : body = "" <;>
    simp [signatureString, h, String.intercalate, String.intercalate.go,
      String.append_assoc]
  apply String.ext
  simp [String.append_assoc]

theorem signRequest_ok (cp : CryptoPrims) (fst : Option RSAServiceKind)
    (date : String) (m : HttpMethod) (path body url pk kid : String)
    (pr : RSAServiceKind × Option RSAServiceKind) (bs : List Nat)
    (hfac : RSAServiceFactory.get cp fst = .ok pr)
    (hsig : cp.rsaSignPrim pk
      (signatureString m path body url (digestOf cp body) date) = .ok bs) :
    signRequest cp fst date m path body url pk kid = .ok
      [("Date", date),
       ("Digest", "SHA-256=" ++ digestOf cp body),
       ("Authorization",
        "Signature keyId=\"" ++ kid ++
        "\", algorithm=\"rsa-sha256\", headers=\"" ++
        signatureHeadersList body ++ "\", signature=\"" ++
        cp.base64 bs ++ "\"")] := by
  obtain ⟨svc, st⟩ := pr
  cases svc
  simp [signRequest, hfac, RSAService.sign, RSAServiceCrypto.sign, hsig]

theorem signRequest_error (cp : CryptoPrims) (fst : Option RSAServiceKind)
    (date : String) (m : HttpMethod) (path body url pk kid : String)
    (pr : RSAServiceKind × Option RSAServiceKind) (em : String)
    (hfac : RSAServiceFactory.get cp fst = .ok pr)
    (hsig : cp.rsaSignPrim pk
      (signatureString m path body url (digestOf cp body) date) = .error em) :
    signRequest cp fst date m path body url pk kid =
      .error ("Signing failed: " ++ em) := by
  obtain ⟨svc, st⟩ := pr
  cases svc
  simp [signRequest, hfac, RSAService.sign, RSAServiceCrypto.sign, hsig]

theorem lookupHeader_setHeader_self (hs : List (String × String))
    (k v : String) : lookupHeader (setHeader hs k v) k = some v := by
  induction hs with
  | nil => simp [setHeader, lookupHeader]
  | cons p t ih =>
    by_cases h : p.1 = k <;> simp [setHeader, lookupHeader, h, ih]

theorem lookupHeader_setHeader_ne (hs : List (String × String))
    (k v k2 : String) (h : k ≠ k2) :
    lookupHeader (setHeader hs k v) k2 = lookupHeader hs k2 := by
  induction hs with
  | nil => simp [setHeader, lookupHeader, h]
  | cons p t ih =>
    by_cases h0 : p.1 = k
    · simp [setHeader, lookupHeader, h0, h]
    · simp only [setHeader, if_neg h0, lookupHeader]
      by_cases h2 : p.1 = k2 <;> simp [h2, ih]

theorem lookupHeader_addHeaderIf_ne (hs : List (String × String))
    (key : String) (o : Option String) (k : String) (h : key ≠ k) :
    lookupHeader (addHeaderIf hs key o) k = lookupHeader hs k := by
  cases o with
  | none => rfl
  | some s =>
    by_cases h0 : s = "" <;>
      simp [addHeaderIf, h0, lookupHeader_setHeader_ne _ _ _ _ h]

theorem lookupHeader_assignAll_not_mem (news : List (String × String))
    (hs : List (String × String)) (k : String)
    (h : k ∉ news.map Prod.fst) :
    lookupHeader (assignAll hs news) k = lookupHeader hs k := by
  induction news generalizing hs with
  | nil => rfl
  | cons p t ih =>
    simp only [List.map_cons, List.mem_cons] at h
    push_neg at h
    have hne : p.1 ≠ k := fun hc => h.1 hc.symm
    simp only [assignAll, List.foldl_cons]
    rw [show List.foldl (fun acc kv => setHeader acc kv.1 kv.2)
      (setHeader hs p.1 p.2) t = assignAll (setHeader hs p.1 p.2) t from rfl,
      ih _ h.2, lookupHeader_setHeader_ne _ _ _ _ hne]

theorem lookupHeader_assignAll_none (news hs : List (String × String))
    (k : String) (h1 : lookupHeader hs k = none)
    (h2 : lookupHeader news k = none) :
    lookupHeader (assignAll hs news) k = none := by
  induction news generalizing hs with
  | nil => exact h1
  | cons p t ih =>
    simp only [lookupHeader] at h2
    by_cases hp : p.1 = k
    · simp [hp] at h2
    · simp only [if_neg hp] at h2
      simp only [assignAll, List.foldl_cons]
      exact ih (setHeader hs p.1 p.2)
        (by rw [lookupHeader_setHeader_ne _ _ _ _ hp]; exact h1) h2

theorem lookupHeader_assignAll_of_lookup (news hs : List (String × String))
    (k v : String) (hnd : (news.map Prod.fst).Nodup)
    (h : lookupHeader news k = some v) :
    lookupHeader (assignAll hs news) k = some v := by
  induction news generalizing hs with
  | nil => simp [lookupHeader] at h
  | cons p t ih =>
    simp only [List.map_cons, List.nodup_cons] at hnd
    simp only [lookupHeader] at h
    by_cases hp : p.1 = k
    · simp only [if_pos hp] at h
      cases h
      simp only [assignAll, List.foldl_cons]
      rw [show List.foldl (fun acc kv => setHeader acc kv.1 kv.2)
        (setHeader hs p.1 p.2) t = assignAll (setHeader hs p.1 p.2) t from rfl]
      rw [lookupHeader_assignAll_not_mem t _ k (by rw [← hp]; exact hnd.1)]
      rw [hp, lookupHeader_setHeader_self]
    · simp only [if_neg hp] at h
      simp only [assignAll, List.foldl_cons]
      exact ih (setHeader hs p.1 p.2) hnd.2 h

theorem lookupHeader_withBodyHeaders_ne (hs : List (String × String))
    (b : Option String) (k : String) (h1 : k ≠ "Content-Type")
    (h2 : k ≠ "Content-Length") :
    lookupHeader (withBodyHeaders hs b).2 k = lookupHeader hs k := by
  cases b with
  | none => rfl
  | some s =>
    simp only [withBodyHeaders]
    rw [lookupHeader_setHeader_ne _ _ _ _ (fun hc => h2 hc.symm),
      lookupHeader_setHeader_ne _ _ _ _ (fun hc => h1 hc.symm)]

theorem lookupHeader_pipeline (env : ApiEnv)
    (callerHeaders : List (String × String)) (b : Option String) (k : String)
    (h1 : k ≠ "Content-Type") (h2 : k ≠ "Content-Length")
    (h3 : k ≠ "x-satispay-os") (h4 : k ≠ "x-satispay-osv")
    (h5 : k ≠ "x-satispay-appv") (h6 : k ≠ "x-satispay-appn")
    (h7 : k ≠ "x-satispay-devicetype")
    (h8 : k ≠ "x-satispay-tracking-code") :
    lookupHeader (withBodyHeaders (baseHeaders env callerHeaders) b).2 k =
      lookupHeader (assignAll
        [("Accept", "application/json"),
         ("User-Agent", "SatispayGBusinessApiNodeSdk/" ++ env.version)]
        callerHeaders) k := by
  rw [lookupHeader_withBodyHeaders_ne _ _ _ h1 h2]
  simp only [baseHeaders]
  rw [lookupHeader_addHeaderIf_ne _ _ _ _ (Ne.symm h8),
    lookupHeader_addHeaderIf_ne _ _ _ _ (Ne.symm h7),
    lookupHeader_addHeaderIf_ne _ _ _ _ (Ne.symm h6),
    lookupHeader_addHeaderIf_ne _ _ _ _ (Ne.symm h5),
    lookupHeader_addHeaderIf_ne _ _ _ _ (Ne.symm h4),
    lookupHeader_addHeaderIf_ne _ _ _ _ (Ne.symm h3)]

theorem signStep_skip (cp : CryptoPrims) (fst : Option RSAServiceKind)
    (env : ApiEnv) (date : String) (m : HttpMethod) (p b : String)
    (sgn : Bool)
    (hcreds : truthy env.privateKey = false ∨ truthy env.keyId = false) :
    signStep cp fst env date m p b sgn = .ok [] := by
  cases sgn with
  | false => rfl
  | true =>
    cases hpk : env.privateKey with
    | none => simp [signStep, hpk]
    | some pk =>
      cases hkid : env.keyId with
      | none => simp [signStep, hpk, hkid]
      | some kid =>
        rw [hpk, hkid] at hcreds
        simp only [truthy, decide_eq_false_iff_not, not_not] at hcreds
        rcases hcreds with h | h <;> simp [signStep, hpk, hkid, h]

theorem signStep_signed (cp : CryptoPrims) (fst : Option RSAServiceKind)
    (env : ApiEnv) (date : String) (m : HttpMethod) (p b : String)
    (pk kid : String) (hpk : env.privateKey = some pk) (hpk0 : pk ≠ "")
    (hkid : env.keyId = some kid) (hkid0 : kid ≠ "") :
    signStep cp fst env date m p b true =
      signRequest cp fst date m p b env.authservicesUrl pk kid := by
  simp [signStep, hpk, hkid, hpk0, hkid0]

theorem request_ok_signed (cp : CryptoPrims) (fst : Option RSAServiceKind)
    (env : ApiEnv) (date : String) (opts : RequestOptions)
    (pk kid : String) (pr : RSAServiceKind × Option RSAServiceKind)
    (bs : List Nat)
    (hpk : env.privateKey = some pk) (hpk0 : pk ≠ "")
    (hkid : env.keyId = some kid) (hkid0 : kid ≠ "")
    (hsgn : opts.sign = true)
    (hfac : RSAServiceFactory.get cp fst = .ok pr)
    (hsig : cp.rsaSignPrim pk
      (signatureString opts.method opts.path (serializeBody opts.body)
        env.authservicesUrl (digestOf cp (serializeBody opts.body)) date) =
      .ok bs) :
    Request.request cp fst env date opts = .ok
      { url := env.authservicesUrl ++ opts.path,
        method := opts.method,
        headers := assignAll
          (withBodyHeaders (baseHeaders env opts.headers) opts.body).2
          [("Date", date),
           ("Digest", "SHA-256=" ++ digestOf cp (serializeBody opts.body)),
           ("Authorization",
            "Signature keyId=\"" ++ kid ++
            "\", algorithm=\"rsa-sha256\", headers=\"" ++
            signatureHeadersList (serializeBody opts.body) ++
            "\", signature=\"" ++ cp.base64 bs ++ "\"")],
        body :=
          if serializeBody opts.body ≠ "" ∧ opts.method ≠ HttpMethod.GET then
            some (serializeBody opts.body)
          else none } := by
  have hsr := signRequest_ok cp fst date opts.method opts.path
    (serializeBody opts.body) env.authservicesUrl pk kid pr bs hfac hsig
  simp only [Request.request, withBodyHeaders_fst, hsgn,
    signStep_signed cp fst env date opts.method opts.path
      (serializeBody opts.body) pk kid hpk hpk0 hkid hkid0, hsr]

theorem request_error_signed (cp : CryptoPrims) (fst : Option RSAServiceKind)
    (env : ApiEnv) (date : String) (opts : RequestOptions)
    (pk kid : String) (pr : RSAServiceKind × Option RSAServiceKind)
    (em : String)
    (hpk : env.privateKey = some pk) (hpk0 : pk ≠ "")
    (hkid : env.keyId = some kid) (hkid0 : kid ≠ "")
    (hsgn : opts.sign = true)
    (hfac : RSAServiceFactory.get cp fst = .ok pr)
    (hsig : cp.rsaSignPrim pk
      (signatureString opts.method opts.path (serializeBody opts.body)
        env.authservicesUrl (digestOf cp (serializeBody opts.body)) date) =
      .error em) :
    Request.request cp fst env date opts =
      .error ("Signing failed: " ++ em) := by
  have hsr := signRequest_error cp fst date opts.method opts.path
    (serializeBody opts.body) env.authservicesUrl pk kid pr em hfac hsig
  simp only [Request.request, withBodyHeaders_fst, hsgn,
    signStep_signed cp fst env date opts.method opts.path
      (serializeBody opts.body) pk kid hpk hpk0 hkid hkid0, hsr]

theorem request_unsigned_eq (cp : CryptoPrims) (fst : Option RSAServiceKind)
    (env : ApiEnv) (date : String) (opts : RequestOptions)
    (hcreds : truthy env.privateKey = false ∨ truthy env.keyId = false) :
    Request.request cp fst env date opts = .ok
      { url := env.authservicesUrl ++ opts.path,
        method := opts.method,
        headers := (withBodyHeaders (baseHeaders env opts.headers) opts.body).2,
        body :=
          if serializeBody opts.body ≠ "" ∧ opts.method ≠ HttpMethod.GET then
            some (serializeBody opts.body)
          else none } := by
  simp only [Request.request, withBodyHeaders_fst,
    signStep_skip cp fst env date opts.method opts.path
      (serializeBody opts.body) opts.sign hcreds]
  rfl

theorem lookup_signTriple_date (H : List (String × String)) (d g a : String) :
    lookupHeader (assignAll H
      [("Date", d), ("Digest", g), ("Authorization", a)]) "Date" = some d := by
  show lookupHeader (setHeader (setHeader (setHeader H "Date" d) "Digest" g)
    "Authorization" a) "Date" = some d
  rw [lookupHeader_setHeader_ne _ _ _ _ (by decide),
    lookupHeader_setHeader_ne _ _ _ _ (by decide),
    lookupHeader_setHeader_self]

theorem lookup_signTriple_digest (H : List (String × String)) (d g a : String) :
    lookupHeader (assignAll H
      [("Date", d), ("Digest", g), ("Authorization", a)]) "Digest" = some g := by
  show lookupHeader (setHeader (setHeader (setHeader H "Date" d) "Digest" g)
    "Authorization" a) "Digest" = some g
  rw [lookupHeader_setHeader_ne _ _ _ _ (by decide),
    lookupHeader_setHeader_self]

theorem lookup_signTriple_auth (H : List (String × String)) (d g a : String) :
    lookupHeader (assignAll H
      [("Date", d), ("Digest", g), ("Authorization", a)]) "Authorization" =
      some a := by
  show lookupHeader (setHeader (setHeader (setHeader H "Date" d) "Digest" g)
    "Authorization" a) "Authorization" = some a
  rw [lookupHeader_setHeader_self]

theorem lookup_signTriple_ne (H : List (String × String)) (d g a k : String)
    (h1 : k ≠ "Date") (h2 : k ≠ "Digest") (h3 : k ≠ "Authorization") :
    lookupHeader (assignAll H
      [("Date", d), ("Digest", g), ("Authorization", a)]) k =
      lookupHeader H k := by
  show lookupHeader (setHeader (setHeader (setHeader H "Date" d) "Digest" g)
    "Authorization" a) k = lookupHeader H k
  rw [lookupHeader_setHeader_ne _ _ _ _ (Ne.symm h3),
    lookupHeader_setHeader_ne _ _ _ _ (Ne.symm h2),
    lookupHeader_setHeader_ne _ _ _ _ (Ne.symm h1)]

theorem signatureHeadersList_eq_names (body : String) :
    signatureHeadersList body =
      String.intercalate " " (canonicalHeaderNames body) := by
  by_cases h : body = "" <;>
    simp [signatureHeadersList, canonicalHeaderNames, h, String.intercalate,
      String.intercalate.go]

theorem signatureString_zip (m : HttpMethod)
    (path body url digest date : String) :
    signatureString m path body url digest date =
      String.intercalate "\n"
        (List.zipWith (fun n v => n ++ ": " ++ v) (canonicalHeaderNames body)
          (canonicalHeaderValues m path body url digest date)) := by
  rw [signatureString_intercalate]
  by_cases h : body = "" <;>
    simp [canonicalHeaderNames, canonicalHeaderValues, h, String.intercalate,
      String.intercalate.go, String.append_assoc]
  all_goals
    apply String.ext
    simp [String.append_assoc]

end Lemmas

section Claims

/-- Claim C1: the canonical signature string built by `signRequest` is, for a
non-empty serialized body, exactly the 6 newline-joined lines
`(request-target), host, content-type, content-length, digest, date`
(no trailing newline), and for an empty body exactly the 4 newline-joined
lines `(request-target), host, digest, date`; the `(request-target)`
line carries the lowercased HTTP method followed by the literal request
path. -/
theorem canonical_string_line_structure (m : HttpMethod)
    (path body url digest date : String) :
    (signatureString m path body url digest date =
      if body = "" then
        String.intercalate "\n"
          ["(request-target): " ++ m.toLowerCase ++ " " ++ path,
           "host: " ++ replaceFirstStr url "https://" "",
           "digest: SHA-256=" ++ digest,
           "date: " ++ date]
      else
        String.intercalate "\n"
          ["(request-target): " ++ m.toLowerCase ++ " " ++ path,
           "host: " ++ replaceFirstStr url "https://" "",
           "content-type: application/json",
           "content-length: " ++ toString (byteLength body),
           "digest: SHA-256=" ++ digest,
           "date: " ++ date]) ∧
    (HttpMethod.toLowerCase m).data = (methodName m).data.map Char.toLower :=
  ⟨signatureString_intercalate m path body url digest date,
   by cases m <;> decide⟩

/-- Claim C5: for a non-empty serialized body the `content-length` line of the
canonical string carries the UTF-8 byte length of the body string, not
its character count; for the body `"é"` the two differ (2 bytes vs 1
character) and the byte length is the one used. -/
theorem content_length_is_utf8_byte_length (m : HttpMethod)
    (path body url digest date : String) (h : body ≠ "") :
    signatureString m path body url digest date =
      String.intercalate "\n"
        ["(request-target): " ++ m.toLowerCase ++ " " ++ path,
         "host: " ++ replaceFirstStr url "https://" "",
         "content-type: application/json",
         "content-length: " ++ toString (byteLength body),
         "digest: SHA-256=" ++ digest,
         "date: " ++ date] ∧
    byteLength "é" = 2 ∧ String.length "é" = 1 ∧
    byteLength "é" ≠ String.length "é" := by
  refine ⟨?_, by decide, by decide, by decide⟩
  rw [signatureString_intercalate]
  simp [h]

/-- Closed instance of `content_length_is_utf8_byte_length` at the
multi-byte body `"é"`. -/
theorem content_length_is_utf8_byte_length_witness :
    signatureString .POST "/g_business/v1/payments" "é"
        "https://staging.authservices.satispay.com" "DG"
        "Tue, 15 Jan 2024 10:30:00 GMT" =
      String.intercalate "\n"
        ["(request-target): " ++ HttpMethod.POST.toLowerCase ++ " " ++
           "/g_business/v1/payments",
         "host: " ++ replaceFirstStr
           "https://staging.authservices.satispay.com" "https://" "",
         "content-type: application/json",
         "content-length: " ++ toString (byteLength "é"),
         "digest: SHA-256=" ++ "DG",
         "date: " ++ "Tue, 15 Jan 2024 10:30:00 GMT"] ∧
    byteLength "é" = 2 ∧ String.length "é" = 1 ∧
    byteLength "é" ≠ String.length "é" :=
  content_length_is_utf8_byte_length .POST "/g_business/v1/payments" "é"
    "https://staging.authservices.satispay.com" "DG"
    "Tue, 15 Jan 2024 10:30:00 GMT" (by decide)

/-- Claim C8: the backend factory is a lazy singleton: with an empty cache,
`get` instantiates and caches the (single, hence first) backend when its
`isAvailable` probe succeeds; with a cached instance every call returns
that same instance and leaves the cache unchanged; and when no backend
reports available `get` fails immediately with
`No RSA service available.` (the spec's `NoBackendAvailableError`). -/
theorem factory_lazy_singleton (cp : CryptoPrims) :
    (∀ i : RSAServiceKind,
       RSAServiceFactory.get cp (some i) = .ok (i, some i)) ∧
    (RSAServiceCrypto.isAvailable cp = true →
       RSAServiceFactory.get cp none =
         .ok (RSAServiceKind.crypto, some RSAServiceKind.crypto)) ∧
    (RSAServiceCrypto.isAvailable cp = false →
       RSAServiceFactory.get cp none =
         .error "No RSA service available.") :=
  ⟨fun _ => rfl,
   fun h => by simp [RSAServiceFactory.get, h],
   fun h => by simp [RSAServiceFactory.get, h]⟩

/-- Closed instance of `factory_lazy_singleton`: an available backend is
instantiated and cached, a cached instance is returned unchanged, and an
unavailable backend makes `get` fail at once. -/
theorem factory_lazy_singleton_witness :
    RSAServiceFactory.get (cpFixtureAvail true) none =
      .ok (RSAServiceKind.crypto, some RSAServiceKind.crypto) ∧
    RSAServiceFactory.get (cpFixtureAvail true) (some RSAServiceKind.crypto) =
      .ok (RSAServiceKind.crypto, some RSAServiceKind.crypto) ∧
    RSAServiceFactory.get (cpFixtureAvail false) none =
      .error "No RSA service available." :=
  ⟨(factory_lazy_singleton (cpFixtureAvail true)).2.1 rfl,
   (factory_lazy_singleton (cpFixtureAvail true)).1 RSAServiceKind.crypto,
   (factory_lazy_singleton (cpFixtureAvail false)).2.2 rfl⟩

/-- Claim C2: the `headers="..."` list embedded in the `Authorization` value
produced by `signRequest` equals the space-joined names of the
pseudo-header lines actually present in the canonical signature string,
in the same order; it is the 6-name form exactly when the body is
non-empty and the 4-name form exactly when the body is empty. -/
theorem authorization_headers_list_matches_canonical
    (cp : CryptoPrims) (fst : Option RSAServiceKind) (date : String)
    (m : HttpMethod) (path body url pk kid : String)
    (pr : RSAServiceKind × Option RSAServiceKind) (bs : List Nat)
    (hfac : RSAServiceFactory.get cp fst = .ok pr)
    (hsig : cp.rsaSignPrim pk
      (signatureString m path body url (digestOf cp body) date) = .ok bs) :
    (∃ hs, signRequest cp fst date m path body url pk kid = .ok hs ∧
       lookupHeader hs "Authorization" =
         some ("Signature keyId=\"" ++ kid ++
           "\", algorithm=\"rsa-sha256\", headers=\"" ++
           String.intercalate " " (canonicalHeaderNames body) ++
           "\", signature=\"" ++ cp.base64 bs ++ "\"")) ∧
    signatureString m path body url (digestOf cp body) date =
      String.intercalate "\n"
        (List.zipWith (fun n v => n ++ ": " ++ v) (canonicalHeaderNames body)
          (canonicalHeaderValues m path body url (digestOf cp body) date)) ∧
    (String.intercalate " " (canonicalHeaderNames body) =
       "(request-target) host content-type content-length digest date" ↔
       body ≠ "") ∧
    (String.intercalate " " (canonicalHeaderNames body) =
       "(request-target) host digest date" ↔ body = "") := by
  refine ⟨⟨_, signRequest_ok cp fst date m path body url pk kid pr bs
    hfac hsig, ?_⟩, signatureString_zip m path body url (digestOf cp body)
    date, ?_, ?_⟩
  · simp [lookupHeader, signatureHeadersList_eq_names]
  · by_cases h : body = "" <;> simp [canonicalHeaderNames, h] <;> decide
  · by_cases h : body = "" <;> simp [canonicalHeaderNames, h] <;> decide

/-- Closed instance of `authorization_headers_list_matches_canonical`
for a non-empty body on concrete inputs. -/
theorem authorization_headers_list_witness :
    ∃ hs, signRequest cpFixture none "Tue, 15 Jan 2024 10:30:00 GMT" .POST
        "/g_business/v1/payments" "BODY"
        "https://staging.authservices.satispay.com" "PK" "KID" = .ok hs ∧
      lookupHeader hs "Authorization" =
        some ("Signature keyId=\"" ++ "KID" ++
          "\", algorithm=\"rsa-sha256\", headers=\"" ++
          String.intercalate " " (canonicalHeaderNames "BODY") ++
          "\", signature=\"" ++ cpFixture.base64 [1, 2] ++ "\"") :=
  (authorization_headers_list_matches_canonical cpFixture none
    "Tue, 15 Jan 2024 10:30:00 GMT" .POST "/g_business/v1/payments" "BODY"
    "https://staging.authservices.satispay.com" "PK" "KID"
    (.crypto, some .crypto) [1, 2] rfl rfl).1

/-- Claim C3: `signRequest` computes the digest of every serialized body
(including the empty one) as base64 of the SHA-256 of the body's UTF-8
bytes, formats it as `SHA-256=<base64>`, and the `Digest` header value
is the very value on the `digest:` line of the canonical string (the
single computation `digestOf` is reused for both). -/
theorem digest_header_matches_canonical_line
    (cp : CryptoPrims) (fst : Option RSAServiceKind) (date : String)
    (m : HttpMethod) (path body url pk kid : String)
    (pr : RSAServiceKind × Option RSAServiceKind) (bs : List Nat)
    (hfac : RSAServiceFactory.get cp fst = .ok pr)
    (hsig : cp.rsaSignPrim pk
      (signatureString m path body url (digestOf cp body) date) = .ok bs) :
    ∃ hs dv, signRequest cp fst date m path body url pk kid = .ok hs ∧
      dv = "SHA-256=" ++ cp.base64 (cp.sha256 (utf8Bytes body)) ∧
      lookupHeader hs "Digest" = some dv ∧
      signatureString m path body url (digestOf cp body) date =
        ("(request-target): " ++ m.toLowerCase ++ " " ++ path ++ "\n" ++
         ("host: " ++ replaceFirstStr url "https://" "" ++ "\n") ++
         (if body = "" then ""
          else "content-type: application/json\n" ++
            ("content-length: " ++ toString (byteLength body) ++ "\n"))) ++
        ("digest: " ++ dv ++ "\n") ++ ("date: " ++ date) := by
  refine ⟨_, _, signRequest_ok cp fst date m path body url pk kid pr bs
    hfac hsig, rfl, ?_, ?_⟩
  · simp [lookupHeader, digestOf]
  · simp only [signatureString, digestOf]
    apply String.ext
    simp [String.append_assoc]

/-- Closed instance of `digest_header_matches_canonical_line` at the
EMPTY body: the digest is computed over the empty byte sequence, not
skipped. -/
theorem digest_header_matches_canonical_line_witness :
    ∃ hs dv, signRequest cpFixture none "Tue, 15 Jan 2024 10:30:00 GMT"
        .GET "/g_business/v1/payments/payment-123"
        "" "https://staging.authservices.satispay.com" "PK" "KID" =
        .ok hs ∧
      dv = "SHA-256=" ++ cpFixture.base64 (cpFixture.sha256 (utf8Bytes "")) ∧
      lookupHeader hs "Digest" = some dv ∧
      signatureString .GET "/g_business/v1/payments/payment-123" ""
          "https://staging.authservices.satispay.com"
          (digestOf cpFixture "") "Tue, 15 Jan 2024 10:30:00 GMT" =
        ("(request-target): " ++ HttpMethod.GET.toLowerCase ++ " " ++
         "/g_business/v1/payments/payment-123" ++ "\n" ++
         ("host: " ++ replaceFirstStr
           "https://staging.authservices.satispay.com" "https://" "" ++
           "\n") ++
         (if ("" : String) = "" then ""
          else "content-type: application/json\n" ++
            ("content-length: " ++ toString (byteLength "") ++ "\n"))) ++
        ("digest: " ++ dv ++ "\n") ++
        ("date: " ++ "Tue, 15 Jan 2024 10:30:00 GMT") :=
  digest_header_matches_canonical_line cpFixture none
    "Tue, 15 Jan 2024 10:30:00 GMT" .GET
    "/g_business/v1/payments/payment-123" ""
    "https://staging.authservices.satispay.com" "PK" "KID"
    (.crypto, some .crypto) [1, 2] rfl rfl

/-- Claim C4: the date value is captured once per `signRequest` call (the
single `new Date().toUTCString()` read, modelled as the one parameter
`date`), and the value placed in the `Date` header is the very value on
the `date:` line of the canonical signature string. -/
theorem date_header_matches_canonical_line
    (cp : CryptoPrims) (fst : Option RSAServiceKind) (date : String)
    (m : HttpMethod) (path body url pk kid : String)
    (pr : RSAServiceKind × Option RSAServiceKind) (bs : List Nat)
    (hfac : RSAServiceFactory.get cp fst = .ok pr)
    (hsig : cp.rsaSignPrim pk
      (signatureString m path body url (digestOf cp body) date) = .ok bs) :
    ∃ hs, signRequest cp fst date m path body url pk kid = .ok hs ∧
      lookupHeader hs "Date" = some date ∧
      signatureString m path body url (digestOf cp body) date =
        ("(request-target): " ++ m.toLowerCase ++ " " ++ path ++ "\n" ++
         ("host: " ++ replaceFirstStr url "https://" "" ++ "\n") ++
         (if body = "" then ""
          else "content-type: application/json\n" ++
            ("content-length: " ++ toString (byteLength body) ++ "\n")) ++
         ("digest: SHA-256=" ++ digestOf cp body ++ "\n")) ++
        ("date: " ++ date) := by
  refine ⟨_, signRequest_ok cp fst date m path body url pk kid pr bs
    hfac hsig, ?_, ?_⟩
  · simp [lookupHeader]
  · simp only [signatureString]

/-- Closed instance of `date_header_matches_canonical_line` on concrete
inputs. -/
theorem date_header_matches_canonical_line_witness :
    ∃ hs, signRequest cpFixture none "Tue, 15 Jan 2024 10:30:00 GMT" .POST
        "/g_business/v1/payments" "BODY"
        "https://staging.authservices.satispay.com" "PK" "KID" = .ok hs ∧
      lookupHeader hs "Date" = some "Tue, 15 Jan 2024 10:30:00 GMT" ∧
      signatureString .POST "/g_business/v1/payments" "BODY"
          "https://staging.authservices.satispay.com"
          (digestOf cpFixture "BODY") "Tue, 15 Jan 2024 10:30:00 GMT" =
        ("(request-target): " ++ HttpMethod.POST.toLowerCase ++ " " ++
         "/g_business/v1/payments" ++ "\n" ++
         ("host: " ++ replaceFirstStr
           "https://staging.authservices.satispay.com" "https://" "" ++
           "\n") ++
         (if ("BODY" : String) = "" then ""
          else "content-type: application/json\n" ++
            ("content-length: " ++ toString (byteLength "BODY") ++ "\n")) ++
         ("digest: SHA-256=" ++ digestOf cpFixture "BODY" ++ "\n")) ++
        ("date: " ++ "Tue, 15 Jan 2024 10:30:00 GMT") :=
  date_header_matches_canonical_line cpFixture none
    "Tue, 15 Jan 2024 10:30:00 GMT" .POST "/g_business/v1/payments" "BODY"
    "https://staging.authservices.satispay.com" "PK" "KID"
    (.crypto, some .crypto) [1, 2] rfl rfl

/-- Claim C6: when signing is requested but the private key or the key id is
absent (or empty) in the credential store, the pipeline adds no `Date`,
`Digest` or `Authorization` header, does not throw, and behaves exactly
like the same request issued without signing: a deliberate unsigned
pass-through. -/
theorem missing_credentials_pass_through_unsigned
    (cp : CryptoPrims) (fst : Option RSAServiceKind) (env : ApiEnv)
    (date : String) (opts : RequestOptions)
    (hcreds : truthy env.privateKey = false ∨ truthy env.keyId = false) :
    Request.request cp fst env date opts =
      Request.request cp fst env date { opts with sign := false } ∧
    ∃ fc, Request.request cp fst env date opts = .ok fc ∧
      (lookupHeader opts.headers "Date" = none →
        lookupHeader fc.headers "Date" = none) ∧
      (lookupHeader opts.headers "Digest" = none →
        lookupHeader fc.headers "Digest" = none) ∧
      (lookupHeader opts.headers "Authorization" = none →
        lookupHeader fc.headers "Authorization" = none) := by
  have h1 := request_unsigned_eq cp fst env date opts hcreds
  have h2 := request_unsigned_eq cp fst env date { opts with sign := false }
    hcreds
  refine ⟨by rw [h1, h2], _, h1, ?_, ?_, ?_⟩ <;> intro h0 <;> dsimp only <;>
    rw [lookupHeader_pipeline env opts.headers opts.body _ (by decide)
      (by decide) (by decide) (by decide) (by decide) (by decide) (by decide)
      (by decide)] <;>
    exact lookupHeader_assignAll_none _ _ _ (by simp [lookupHeader]) h0

/-- Closed instance of `missing_credentials_pass_through_unsigned` with
the private key absent. -/
theorem missing_credentials_witness :
    Request.request cpFixture none envFixtureNoKey
        "Tue, 15 Jan 2024 10:30:00 GMT" optsFixtureSigned =
      Request.request cpFixture none envFixtureNoKey
        "Tue, 15 Jan 2024 10:30:00 GMT"
        { optsFixtureSigned with sign := false } ∧
    ∃ fc, Request.request cpFixture none envFixtureNoKey
        "Tue, 15 Jan 2024 10:30:00 GMT" optsFixtureSigned = .ok fc ∧
      (lookupHeader optsFixtureSigned.headers "Date" = none →
        lookupHeader fc.headers "Date" = none) ∧
      (lookupHeader optsFixtureSigned.headers "Digest" = none →
        lookupHeader fc.headers "Digest" = none) ∧
      (lookupHeader optsFixtureSigned.headers "Authorization" = none →
        lookupHeader fc.headers "Authorization" = none) :=
  missing_credentials_pass_through_unsigned cpFixture none envFixtureNoKey
    "Tue, 15 Jan 2024 10:30:00 GMT" optsFixtureSigned (Or.inl rfl)

/-- Claim C7: when signing is requested with present, non-empty credentials
but the signing primitive rejects the key, `Request.request` fails with
the propagated `Signing failed: ...` error (the spec's `SigningError`)
before any transport call: no `FetchCall` is produced at all, hence no
partial header set and no unsigned fallback send. -/
theorem signing_error_propagates_without_partial_headers
    (cp : CryptoPrims) (fst : Option RSAServiceKind) (env : ApiEnv)
    (date : String) (opts : RequestOptions) (pk kid : String)
    (pr : RSAServiceKind × Option RSAServiceKind) (em : String)
    (hpk : env.privateKey = some pk) (hpk0 : pk ≠ "")
    (hkid : env.keyId = some kid) (hkid0 : kid ≠ "")
    (hsgn : opts.sign = true)
    (hfac : RSAServiceFactory.get cp fst = .ok pr)
    (hsig : cp.rsaSignPrim pk
      (signatureString opts.method opts.path (serializeBody opts.body)
        env.authservicesUrl (digestOf cp (serializeBody opts.body)) date) =
      .error em) :
    Request.request cp fst env date opts =
      .error ("Signing failed: " ++ em) ∧
    ∀ fc : FetchCall, Request.request cp fst env date opts ≠ .ok fc := by
  have h := request_error_signed cp fst env date opts pk kid pr em hpk hpk0
    hkid hkid0 hsgn hfac hsig
  exact ⟨h, fun fc hc => by rw [h] at hc; exact Except.noConfusion hc⟩

/-- Closed instance of
`signing_error_propagates_without_partial_headers` with a signing
primitive that rejects the key. -/
theorem signing_error_propagates_witness :
    Request.request cpFixtureFail none envFixture
        "Tue, 15 Jan 2024 10:30:00 GMT" optsFixtureSigned =
      .error ("Signing failed: " ++ "malformed key") ∧
    ∀ fc : FetchCall,
      Request.request cpFixtureFail none envFixture
        "Tue, 15 Jan 2024 10:30:00 GMT" optsFixtureSigned ≠ .ok fc :=
  signing_error_propagates_without_partial_headers cpFixtureFail none
    envFixture "Tue, 15 Jan 2024 10:30:00 GMT" optsFixtureSigned "PK" "KID"
    (.crypto, some .crypto) "malformed key" rfl (by decide) rfl (by decide)
    rfl rfl rfl

/-- Claim C9, counterexample: a caller-supplied header whose key is NOT one of
`Date`/`Digest`/`Authorization` is not always carried through unchanged:
on a signed POST with a body, a caller-supplied `Content-Type` of
`text/plain` is overwritten with `application/json` by the body-handling
step. -/
theorem caller_header_not_carried_cex :
    lookupHeader cex9Opts.headers "Content-Type" = some "text/plain" ∧
    ("Content-Type" ∉ (["Date", "Digest", "Authorization"] : List String)) ∧
    ∃ fc, Request.request cpFixture none envFixture
        "Tue, 15 Jan 2024 10:30:00 GMT" cex9Opts = .ok fc ∧
      lookupHeader fc.headers "Content-Type" = some "application/json" := by
  refine ⟨rfl, by decide, _, request_ok_signed cpFixture none envFixture
    "Tue, 15 Jan 2024 10:30:00 GMT" cex9Opts "PK" "KID"
    (.crypto, some .crypto) [1, 2] rfl (by decide) rfl (by decide) rfl rfl
    rfl, ?_⟩
  dsimp only
  rw [lookup_signTriple_ne _ _ _ _ _ (by decide) (by decide) (by decide)]
  show lookupHeader (setHeader (setHeader (baseHeaders envFixture
    cex9Opts.headers) "Content-Type" "application/json") "Content-Length"
    (toString (byteLength "\x7b\x7d"))) "Content-Type" =
    some "application/json"
  rw [lookupHeader_setHeader_ne _ _ _ _ (by decide),
    lookupHeader_setHeader_self]

/-- Claim C9, amended: for every signed request the computed `Date`, `Digest`
and `Authorization` values win over any caller-supplied headers with the
same keys, and every caller-supplied header whose key is not among the
keys the pipeline writes after the caller spread (`Date`, `Digest`,
`Authorization`, `Content-Type`, `Content-Length` and the six
`x-satispay-*` platform headers) is carried through unchanged. -/
theorem signed_headers_precedence_amended
    (cp : CryptoPrims) (fst : Option RSAServiceKind) (env : ApiEnv)
    (date : String) (opts : RequestOptions) (pk kid : String)
    (pr : RSAServiceKind × Option RSAServiceKind) (bs : List Nat)
    (hpk : env.privateKey = some pk) (hpk0 : pk ≠ "")
    (hkid : env.keyId = some kid) (hkid0 : kid ≠ "")
    (hsgn : opts.sign = true)
    (hfac : RSAServiceFactory.get cp fst = .ok pr)
    (hsig : cp.rsaSignPrim pk
      (signatureString opts.method opts.path (serializeBody opts.body)
        env.authservicesUrl (digestOf cp (serializeBody opts.body)) date) =
      .ok bs) :
    ∃ fc, Request.request cp fst env date opts = .ok fc ∧
      lookupHeader fc.headers "Date" = some date ∧
      lookupHeader fc.headers "Digest" =
        some ("SHA-256=" ++ digestOf cp (serializeBody opts.body)) ∧
      lookupHeader fc.headers "Authorization" =
        some ("Signature keyId=\"" ++ kid ++
          "\", algorithm=\"rsa-sha256\", headers=\"" ++
          signatureHeadersList (serializeBody opts.body) ++
          "\", signature=\"" ++ cp.base64 bs ++ "\"") ∧
      ∀ k v, k ∉ overwrittenHeaderKeys →
        (opts.headers.map Prod.fst).Nodup →
        lookupHeader opts.headers k = some v →
        lookupHeader fc.headers k = some v := by
  refine ⟨_, request_ok_signed cp fst env date opts pk kid pr bs hpk hpk0
    hkid hkid0 hsgn hfac hsig, ?_, ?_, ?_, ?_⟩
  · exact lookup_signTriple_date _ _ _ _
  · exact lookup_signTriple_digest _ _ _ _
  · exact lookup_signTriple_auth _ _ _ _
  · intro k v hk hnd hlook
    simp only [overwrittenHeaderKeys, List.mem_cons, List.not_mem_nil,
      or_false, not_or] at hk
    obtain ⟨n1, n2, n3, n4, n5, n6, n7, n8, n9, n10, n11⟩ := hk
    dsimp only
    rw [lookup_signTriple_ne _ _ _ _ _ n1 n2 n3,
      lookupHeader_pipeline env opts.headers opts.body k n4 n5 n6 n7 n8 n9
        n10 n11]
    exact lookupHeader_assignAll_of_lookup _ _ _ _ hnd hlook

/-- Closed instance of `signed_headers_precedence_amended`: the computed
values win for the three signing headers and a caller-supplied
`Idempotency-Key` header passes through. -/
theorem signed_headers_precedence_witness :
    ∃ fc, Request.request cpFixture none envFixture
        "Tue, 15 Jan 2024 10:30:00 GMT" cex9Opts = .ok fc ∧
      lookupHeader fc.headers "Date" =
        some "Tue, 15 Jan 2024 10:30:00 GMT" ∧
      lookupHeader fc.headers "Digest" =
        some ("SHA-256=" ++ digestOf cpFixture
          (serializeBody cex9Opts.body)) ∧
      lookupHeader fc.headers "Authorization" =
        some ("Signature keyId=\"" ++ "KID" ++
          "\", algorithm=\"rsa-sha256\", headers=\"" ++
          signatureHeadersList (serializeBody cex9Opts.body) ++
          "\", signature=\"" ++ cpFixture.base64 [1, 2] ++ "\"") ∧
      ∀ k v, k ∉ overwrittenHeaderKeys →
        (cex9Opts.headers.map Prod.fst).Nodup →
        lookupHeader cex9Opts.headers k = some v →
        lookupHeader fc.headers k = some v :=
  signed_headers_precedence_amended cpFixture none envFixture
    "Tue, 15 Jan 2024 10:30:00 GMT" cex9Opts "PK" "KID"
    (.crypto, some .crypto) [1, 2] rfl (by decide) rfl (by decide) rfl rfl
    rfl

/-- Claim C10: a signed GET issued with a non-empty body option serializes the
body and signs over the 6-line canonical string (content-type,
content-length and the digest of that body included), yet the serialized
body is excluded from the transmitted request (`fetchOptions.body` is
never set for GET), so the signed digest covers bytes that are never
sent. -/
theorem get_body_signed_but_not_sent
    (cp : CryptoPrims) (fst : Option RSAServiceKind) (env : ApiEnv)
    (date : String) (opts : RequestOptions) (pk kid s : String)
    (pr : RSAServiceKind × Option RSAServiceKind) (bs : List Nat)
    (hpk : env.privateKey = some pk) (hpk0 : pk ≠ "")
    (hkid : env.keyId = some kid) (hkid0 : kid ≠ "")
    (hsgn : opts.sign = true) (hm : opts.method = .GET)
    (hb : opts.body = some s) (hs0 : s ≠ "")
    (hfac : RSAServiceFactory.get cp fst = .ok pr)
    (hsig : cp.rsaSignPrim pk
      (signatureString .GET opts.path s env.authservicesUrl
        (digestOf cp s) date) = .ok bs) :
    ∃ fc, Request.request cp fst env date opts = .ok fc ∧
      fc.body = none ∧
      lookupHeader fc.headers "Authorization" =
        some ("Signature keyId=\"" ++ kid ++
          "\", algorithm=\"rsa-sha256\", headers=\"" ++
          "(request-target) host content-type content-length digest date" ++
          "\", signature=\"" ++ cp.base64 bs ++ "\"") ∧
      signatureString .GET opts.path s env.authservicesUrl (digestOf cp s)
          date =
        String.intercalate "\n"
          ["(request-target): " ++ HttpMethod.GET.toLowerCase ++ " " ++
             opts.path,
           "host: " ++ replaceFirstStr env.authservicesUrl "https://" "",
           "content-type: application/json",
           "content-length: " ++ toString (byteLength s),
           "digest: SHA-256=" ++ digestOf cp s,
           "date: " ++ date] := by
  have hsig2 : cp.rsaSignPrim pk
      (signatureString opts.method opts.path (serializeBody opts.body)
        env.authservicesUrl (digestOf cp (serializeBody opts.body)) date) =
      .ok bs := by
    rw [hm, hb]
    exact hsig
  refine ⟨_, request_ok_signed cp fst env date opts pk kid pr bs hpk hpk0
    hkid hkid0 hsgn hfac hsig2, ?_, ?_, ?_⟩
  · dsimp only
    rw [hm]
    simp
  · dsimp only
    rw [hb]
    show lookupHeader (assignAll _
      [("Date", date), ("Digest", "SHA-256=" ++ digestOf cp
        (serializeBody (some s))),
       ("Authorization", "Signature keyId=\"" ++ kid ++
        "\", algorithm=\"rsa-sha256\", headers=\"" ++
        signatureHeadersList (serializeBody (some s)) ++
        "\", signature=\"" ++ cp.base64 bs ++ "\"")]) "Authorization" = _
    rw [lookup_signTriple_auth]
    simp [serializeBody, signatureHeadersList, hs0]
  · rw [signatureString_intercalate]
    simp [hs0]

/-- Closed instance of `get_body_signed_but_not_sent` on concrete
inputs. -/
theorem get_body_signed_but_not_sent_witness :
    ∃ fc, Request.request cpFixture none envFixture
        "Tue, 15 Jan 2024 10:30:00 GMT" optsFixtureGetBody = .ok fc ∧
      fc.body = none ∧
      lookupHeader fc.headers "Authorization" =
        some ("Signature keyId=\"" ++ "KID" ++
          "\", algorithm=\"rsa-sha256\", headers=\"" ++
          "(request-target) host content-type content-length digest date" ++
          "\", signature=\"" ++ cpFixture.base64 [1, 2] ++ "\"") ∧
      signatureString .GET optsFixtureGetBody.path "BODY"
          envFixture.authservicesUrl (digestOf cpFixture "BODY")
          "Tue, 15 Jan 2024 10:30:00 GMT" =
        String.intercalate "\n"
          ["(request-target): " ++ HttpMethod.GET.toLowerCase ++ " " ++
             optsFixtureGetBody.path,
           "host: " ++ replaceFirstStr envFixture.authservicesUrl
             "https://" "",
           "content-type: application/json",
           "content-length: " ++ toString (byteLength "BODY"),
           "digest: SHA-256=" ++ digestOf cpFixture "BODY",
           "date: " ++ "Tue, 15 Jan 2024 10:30:00 GMT"] :=
  get_body_signed_but_not_sent cpFixture none envFixture
    "Tue, 15 Jan 2024 10:30:00 GMT" optsFixtureGetBody "PK" "KID" "BODY"
    (.crypto, some .crypto) [1, 2] rfl (by decide) rfl (by decide) rfl rfl
    rfl (by decide) rfl rfl

end Claims

end Satispay
